import Mathlib

/-!
Verification development for the Py2DM 2DM mesh format engine.

This file gives a shallow embedding of the routines of the `py2dm`
package that the checked properties are about:

* `py2dm/_parser.py` — the pure-Python card grammar (`parse_node`,
  `parse_element`, `parse_node_string`, `scan_metadata`);
* `py2dm/_entities.py` — the entity data model (`Node`, the `Element`
  variants, `NodeString` and its multi-line `from_line` assembler);
* `py2dm/_read.py` — the `Reader` class (`_parse_metadata`, `__init__`
  cache construction, `close`, `node`, `extent`);
* `py2dm/_write.py` — the `Writer` class (`element`, `node`,
  `node_string`, `write_header`, the `flush_*` family and the
  flush-ordering state machine).

Python strings are Lean `String`s, Python `int` is `Int`, Python
`float` is modelled by `ℚ` (no rounding is relevant to any property
proved here), fallible code returns `Except PyErr`.  Mutation of the
`Reader`/`Writer` objects is modelled by explicit state passing: a
method that can both mutate `self` and raise returns
`self' × Except PyErr result`, so state changes made before an
exception is raised are kept, exactly as in Python.  Object identity
(needed for the deep-copy/no-aliasing property) is modelled by an
explicit store of entities addressed by index.

String primitives are implemented over `List Char` by structural
recursion so that every definition evaluates inside the kernel.
-/

namespace Py2dm

/-- Python exception kinds raised by the embedded code.  Messages and
payloads carried by the Python exception objects are elided; only the
exception class matters for the properties below. -/
inductive PyErr where
  | readError
  | formatError
  | cardError
  | writeError
  | valueError
  | typeErr
  | keyError
  | indexError
  | attributeError
  | fileIsClosedError
  | notImplementedError
  | runtimeError
deriving DecidableEq, Repr

/-- Numeric value of a list of decimal digit characters. -/
def natOfDigits (ds : List Char) : Nat :=
  ds.foldl (fun acc c => 10 * acc + (c.toNat - '0'.toNat)) 0

/-- Python `int(token)` on a whitespace-free token: an optional sign
followed by one or more decimal digits; everything else raises
`ValueError` (`none`). -/
def pyInt? (s : String) : Option Int :=
  let p : Bool × List Char :=
    match s.toList with
    | '-' :: rest => (true, rest)
    | '+' :: rest => (false, rest)
    | cs => (false, cs)
  if p.2 ≠ [] ∧ p.2.all Char.isDigit then
    some (if p.1 then -(natOfDigits p.2 : Int) else (natOfDigits p.2 : Int))
  else none

/-- Mantissa part of Python `float(token)`: optional sign, integer
digits, an optional decimal point and fraction digits; the value is
scaled by the already-parsed decimal exponent `e`. -/
def pyMant? (cs : List Char) (e : Int) : Option ℚ :=
  let p : Bool × List Char :=
    match cs with
    | '-' :: rest => (true, rest)
    | '+' :: rest => (false, rest)
    | cs' => (false, cs')
  let ip := p.2.takeWhile Char.isDigit
  let rest := p.2.dropWhile Char.isDigit
  let fp : Option (List Char) :=
    match rest with
    | [] => some []
    | '.' :: fs => if fs.all Char.isDigit then some fs else none
    | _ => none
  match fp with
  | none => none
  | some fs =>
    if ip = [] ∧ fs = [] then none
    else
      let m := natOfDigits (ip ++ fs)
      let v : ℚ :=
        if 0 ≤ e then mkRat (m * 10 ^ e.toNat : Nat) (10 ^ fs.length)
        else mkRat (m : Nat) (10 ^ fs.length * 10 ^ (-e).toNat)
      some (if p.1 then Rat.neg v else v)

/-- Python `float(token)` on a whitespace-free decimal token, with an
optional `e`/`E` exponent.  The special values `inf`/`nan` are not
modelled; no property below depends on them. -/
def pyFloat? (s : String) : Option ℚ :=
  let cs := s.toList
  let mant := cs.takeWhile (fun c => !(c == 'e' || c == 'E'))
  let rest := cs.dropWhile (fun c => !(c == 'e' || c == 'E'))
  match rest with
  | [] => pyMant? mant 0
  | _ :: ex =>
    match pyInt? (String.mk ex) with
    | some e => pyMant? mant e
    | none => none

/-- Python `line.split('#', maxsplit=1)[0]`: the text before the first
`#`, or the whole string when there is none. -/
def stripComment (s : String) : String :=
  String.mk (s.toList.takeWhile (fun c => c ≠ '#'))

/-- Helper for whitespace splitting: accumulates the current word in
reverse and emits it at each whitespace run. -/
def wordsAux : List Char → List Char → List (List Char)
  | [], acc => if acc = [] then [] else [acc.reverse]
  | c :: cs, acc =>
    if c.isWhitespace then
      if acc = [] then wordsAux cs [] else acc.reverse :: wordsAux cs []
    else wordsAux cs (c :: acc)

/-- Python `str.split()` with no arguments: split on runs of
whitespace, discarding empty fields. -/
def pyWords (s : String) : List String :=
  (wordsAux s.toList []).map String.mk

/-- Tokenisation used by every card parser in `py2dm/_parser.py`:
`line.split('#', maxsplit=1)[0].split()`. -/
def pyTokens (line : String) : List String :=
  pyWords (stripComment line)

/-- Helper for splitting on a single separator character (Python
`str.split(sep)`), keeping empty fields. -/
def splitCharAux (sep : Char) : List Char → List Char → List (List Char)
  | [], acc => [acc.reverse]
  | c :: cs, acc =>
    if c = sep then acc.reverse :: splitCharAux sep cs []
    else splitCharAux sep cs (c :: acc)

/-- Python `s.split('"')` (the `maxsplit=2` used in the source does not
change the fields at indices 0 and 1, which are the only ones read). -/
def splitQuote (s : String) : List String :=
  (splitCharAux '"' s.toList []).map String.mk

/-- Python `str.strip()` with no arguments: remove leading and trailing
whitespace. -/
def pyStrip (s : String) : String :=
  String.mk (((s.toList.dropWhile Char.isWhitespace).reverse.dropWhile
    Char.isWhitespace).reverse)

/-- Python `s.startswith(pre)`. -/
def pyStartsWith (s pre : String) : Bool :=
  pre.toList.isPrefixOf s.toList

/-- Python `c in s` for a single character. -/
def pyContains (s : String) (c : Char) : Bool :=
  s.toList.contains c

/-- Python `name.strip('"')`: remove every leading and trailing double
quote character. -/
def stripQuotes (s : String) : String :=
  String.mk (((s.toList.dropWhile (fun c => c = '"')).reverse.dropWhile
    (fun c => c = '"')).reverse)

/-! ## Entity model (`py2dm/_entities.py`) -/

/-- A material value attached to an element: Python `int` or `float`
(`_Material = Union[int, float]`). -/
inductive Mat where
  | int (n : Int)
  | flt (q : ℚ)
deriving DecidableEq, Repr

/-- Python `isinstance(material, int)` test used by the writer's
float-material check, negated. -/
def Mat.isFloat : Mat → Bool
  | .int _ => false
  | .flt _ => true

/-- The `Node` entity: unique ID plus x/y/z position
(`_entities.Node`). -/
structure NodeV where
  id : Int
  x : ℚ
  y : ℚ
  z : ℚ
deriving DecidableEq, Repr

/-- An `Element` instance: its class data (2DM card and node count) and
its fields `id`, `nodes`, `materials` (`_entities.Element` and its
seven concrete subclasses). -/
structure ElementV where
  card : String
  num_nodes : Nat
  id : Int
  nodes : List Int
  materials : List Mat
deriving DecidableEq, Repr

/-- The `NodeString` entity: ordered node IDs and an optional name
(`_entities.NodeString`). -/
structure NodeString where
  nodes : List Int
  name : Option String
deriving DecidableEq, Repr

/-! ## Card grammar (`py2dm/_parser.py`) -/

/-- The `_ELEMENT_CARDS` list of `py2dm/_parser.py`. -/
def elementCards : List String :=
  ["E2L", "E3L", "E3T", "E4Q", "E6T", "E8Q", "E9Q"]

/-- The `_card_is_element` helper of `py2dm/_parser.py`. -/
def cardIsElement (card : String) : Bool :=
  elementCards.contains card

/-- The `_nodes_per_element` helper of `py2dm/_parser.py`. -/
def nodesPerElement (card : String) : Int :=
  if card = "E2L" then 2
  else if card = "E3L" ∨ card = "E3T" then 3
  else if card = "E4Q" then 4
  else if card = "E6T" then 6
  else if card = "E8Q" then 8
  else if card = "E9Q" then 9
  else -1

/-- The `parse_node` function of `py2dm/_parser.py`: parse an `ND`
card into `(id, x, y, z)`.  Checks happen in source order: field
count, card tag, node ID parse, node ID range, coordinates. -/
def parse_node (line : String) (allow_zero_index : Bool := false) :
    Except PyErr (Int × ℚ × ℚ × ℚ) :=
  let chunks := pyTokens line
  if chunks.length < 5 then .error .cardError
  else if chunks.headD "" ≠ "ND" then .error .cardError
  else
    match pyInt? (chunks.getD 1 "") with
    | none => .error .valueError
    | some id_ =>
      if id_ ≤ 0 ∧ ¬(id_ = 0 ∧ allow_zero_index = true) then .error .formatError
      else
        match pyFloat? (chunks.getD 2 ""), pyFloat? (chunks.getD 3 ""),
            pyFloat? (chunks.getD 4 "") with
        | some x, some y, some z => .ok (id_, x, y, z)
        | _, _, _ => .error .valueError

/-- One material token of an element record: `int(tok)` first, and on
`ValueError` either re-raise (float material IDs disallowed) or
`float(tok)` (`py2dm/_parser.py`, lines 66-75). -/
def parseMatTok (allow_float_matid : Bool) (tok : String) : Except PyErr Mat :=
  match pyInt? tok with
  | some n => .ok (.int n)
  | none =>
    if allow_float_matid = false then .error .valueError
    else
      match pyFloat? tok with
      | some q => .ok (.flt q)
      | none => .error .valueError

/-- One node-ID token of an element record (`py2dm/_parser.py`, lines
59-64).  The guard is translated literally from the source:
`node_id < 0 and not (node_id == 0 and allow_zero_index)` — note that
the second conjunct can never fire when the first one holds, so an ID
of `0` is accepted in every mode. -/
def parseElemNodeTok (allow_zero_index : Bool) (tok : String) : Except PyErr Int :=
  match pyInt? tok with
  | none => .error .valueError
  | some node_id =>
    if node_id < 0 ∧ ¬(node_id = 0 ∧ allow_zero_index = true) then .error .formatError
    else .ok node_id

/-- The `parse_element` function of `py2dm/_parser.py`: parse an
element card into `(id, nodes, materials)`. -/
def parse_element (line : String) (allow_float_matid : Bool := true)
    (allow_zero_index : Bool := false) :
    Except PyErr (Int × List Int × List Mat) :=
  let chunks := pyTokens line
  if chunks.length < 4 then .error .cardError
  else
    let card := chunks.headD ""
    if cardIsElement card = false then .error .cardError
    else
      let num_nodes := (nodesPerElement card).toNat
      if chunks.length < num_nodes + 2 then .error .cardError
      else
        match pyInt? (chunks.getD 1 "") with
        | none => .error .valueError
        | some id_ =>
          if id_ ≤ 0 ∧ ¬(id_ = 0 ∧ allow_zero_index = true) then .error .formatError
          else do
            let nodes ← ((chunks.drop 2).take num_nodes).mapM
              (parseElemNodeTok allow_zero_index)
            let materials ← (chunks.drop (num_nodes + 2)).mapM
              (parseMatTok allow_float_matid)
            pure (id_, nodes, materials)

/-- The token loop of `parse_node_string` (`py2dm/_parser.py`, lines
134-148): append non-negative IDs; the first negative ID terminates
the string (appended as its absolute value) and the single token right
after it, if present, becomes the name (`chunks[index+2]`); remaining
tokens are discarded. -/
def nsLoop (allow_zero_index : Bool) (nodes : List Int) :
    List String → Except PyErr (List Int × Bool × String)
  | [] => .ok (nodes, false, "")
  | tok :: rest =>
    match pyInt? tok with
    | none => .error .valueError
    | some node_id =>
      if node_id = 0 ∧ allow_zero_index = false then .error .formatError
      else if node_id < 0 then
        .ok (nodes ++ [-node_id], true, (match rest with | [] => "" | nm :: _ => nm))
      else nsLoop allow_zero_index (nodes ++ [node_id]) rest

/-- The `parse_node_string` function of `py2dm/_parser.py`, taken at
the level of the already-tokenised line (`chunks`), which is how every
property below is stated. -/
def parse_node_string_chunks (chunks : List String)
    (allow_zero_index : Bool) (nodes : List Int) :
    Except PyErr (List Int × Bool × String) :=
  if chunks.length < 2 then .error .cardError
  else if chunks.headD "" ≠ "NS" then .error .cardError
  else nsLoop allow_zero_index nodes chunks.tail

/-- The `parse_node_string` function of `py2dm/_parser.py` on a raw
line. -/
def parse_node_string (line : String) (allow_zero_index : Bool := false)
    (nodes : List Int := []) : Except PyErr (List Int × Bool × String) :=
  parse_node_string_chunks (pyTokens line) allow_zero_index nodes

deriving instance DecidableEq for Except

/-! ## NodeString construction and multi-line assembly
(`py2dm/_entities.py`, lines 455-516) -/

/-- The `NodeString.__init__` constructor: raises `CardError` when
fewer than two nodes are given. -/
def NodeString.mkChecked (nodes : List Int) : Except PyErr NodeString :=
  if nodes.length < 2 then .error .cardError
  else .ok { nodes := nodes, name := none }

/-- The `NodeString.from_line` classmethod at the level of the
tokenised line.  A fresh node string is constructed (with the two-node
minimum check) when no in-progress string is passed in; otherwise the
in-progress string's node tuple is replaced.  A non-empty name from
the parser is stored stripped of surrounding double quotes. -/
def NodeString.from_line_chunks (chunks : List String)
    (node_string : Option NodeString) (allow_zero_index : Bool) :
    Except PyErr (NodeString × Bool) := do
  let init := match node_string with
    | none => []
    | some ns => ns.nodes
  let (nodes, is_done, name) ← parse_node_string_chunks chunks allow_zero_index init
  let ns ← match node_string with
    | none => NodeString.mkChecked nodes
    | some ns0 => pure { ns0 with nodes := nodes }
  let ns := if name ≠ "" then { ns with name := some (stripQuotes name) } else ns
  pure (ns, is_done)

/-- The `NodeString.from_line` classmethod on a raw line. -/
def NodeString.from_line (line : String) (node_string : Option NodeString := none)
    (allow_zero_index : Bool := false) : Except PyErr (NodeString × Bool) :=
  NodeString.from_line_chunks (pyTokens line) node_string allow_zero_index

/-- The caller protocol of the continuation assembler (as used by the
readers): feed each physical line in order, passing the in-progress
node string back in, and keep the result of the final call. -/
def feedAllChunks (allow_zero_index : Bool) (acc : Option NodeString) :
    List (List String) → Except PyErr (NodeString × Bool)
  | [] =>
    match acc with
    | some ns => .ok (ns, false)
    | none => .error .cardError
  | chunks :: rest => do
    let (ns, is_done) ← NodeString.from_line_chunks chunks acc allow_zero_index
    if rest.isEmpty then pure (ns, is_done)
    else feedAllChunks allow_zero_index (some ns) rest

/-- The caller protocol of the continuation assembler on raw lines. -/
def feedAll (allow_zero_index : Bool) (acc : Option NodeString)
    (lines : List String) : Except PyErr (NodeString × Bool) :=
  feedAllChunks allow_zero_index acc (lines.map pyTokens)

/-! ## Metadata scan of `py2dm/_parser.py` (`scan_metadata`, lines
152-228).

The file is modelled as the list of its physical lines, newline
characters excluded; `file_.tell()` is tracked in characters, with one
character charged per stripped newline, mirroring
`file_.tell() - len(line_raw) - 1` literally. -/

/-- Mutable state of the `scan_metadata` loop.  The final state also
serves as the function's return value (the Python function returns
the counts, name, material count and the three offsets out of it). -/
structure ScanState where
  num_materials_per_elem : Option Int := none
  name : Option String := none
  num_nodes : Nat := 0
  num_elements : Nat := 0
  num_node_strings : Nat := 0
  mesh2d_found : Bool := false
  last_node : Int := -1
  last_element : Int := -1
  nodes_start : Int := 0
  elements_start : Int := 0
  node_strings_start : Int := 0
  tell : Int := 0
deriving DecidableEq, Repr

/-- One iteration of the `scan_metadata` loop. -/
def scanLine (allow_zero_index : Bool) (st : ScanState) (line_raw : String) :
    Except PyErr ScanState := do
  let raw_len : Int := (line_raw.length : Int) + 1
  let st := { st with tell := st.tell + raw_len }
  let line := pyStrip (stripComment line_raw)
  if line = "" then return st
  let st ← do
    if st.mesh2d_found then pure st
    else if pyStartsWith line "MESH2D" then pure { st with mesh2d_found := true }
    else Except.error PyErr.readError
  if pyStartsWith line "ND" then
    match (pyWords line).get? 1 with
    | none => Except.error PyErr.indexError
    | some tok =>
      match pyInt? tok with
      | none => Except.error PyErr.valueError
      | some id_ =>
        if id_ = 0 ∧ allow_zero_index = false then Except.error PyErr.formatError
        else
          let st := { st with num_nodes := st.num_nodes + 1 }
          if st.last_node ≠ -1 ∧ st.last_node + 1 ≠ id_ then
            Except.error PyErr.formatError
          else
            let st := { st with last_node := id_ }
            let st := if st.nodes_start = 0 then
                { st with nodes_start := st.tell - raw_len - 1 } else st
            pure st
  else if ((pyWords line).getD 0 "") ∈ elementCards then
    match (pyWords line).get? 1 with
    | none => Except.error PyErr.indexError
    | some tok =>
      match pyInt? tok with
      | none => Except.error PyErr.valueError
      | some id_ =>
        if id_ = 0 ∧ allow_zero_index = false then Except.error PyErr.formatError
        else
          let st := { st with num_elements := st.num_elements + 1 }
          if st.last_element ≠ -1 ∧ st.last_element + 1 ≠ id_ then
            Except.error PyErr.formatError
          else
            let st := { st with last_element := id_ }
            let st := if st.elements_start = 0 then
                { st with elements_start := st.tell - raw_len - 1 } else st
            pure st
  else if pyStartsWith line "NS" ∧ pyContains (stripComment line) '-' then
    -- NOTE: the source stores `int(line.split(maxsplit=2)[1])` into
    -- `num_materials_per_elem` inside this branch.
    match (pyWords line).get? 1 with
    | none => Except.error PyErr.indexError
    | some tok =>
      match pyInt? tok with
      | none => Except.error PyErr.valueError
      | some v =>
        let st := { st with num_node_strings := st.num_node_strings + 1,
                            num_materials_per_elem := some v }
        let st := if st.node_strings_start = 0 then
            { st with node_strings_start := st.tell - raw_len - 1 } else st
        pure st
  else if pyStartsWith line "MESHNAME" ∨ pyStartsWith line "GM" then
    let qchunks := splitQuote line
    let chunks := if qchunks.length < 2 then pyWords line else qchunks
    match chunks.get? 1 with
    | none => Except.error PyErr.indexError
    | some nm => pure { st with name := some nm }
  else if pyStartsWith line "NUM_MATERIALS_PER_ELEM" then
    match (pyWords line).get? 1 with
    | none => Except.error PyErr.indexError
    | some tok =>
      match pyInt? tok with
      | none => Except.error PyErr.valueError
      | some v => pure { st with num_materials_per_elem := some v }
  else pure st

/-- The `scan_metadata` function of `py2dm/_parser.py`.  The final
`MESH2D tag not found` check is included. -/
def scan_metadata (lines : List String) (allow_zero_index : Bool := false) :
    Except PyErr ScanState := do
  let st ← lines.foldlM (scanLine allow_zero_index) {}
  if st.mesh2d_found = false then .error .readError
  else pure st

/-! ## The Reader (`py2dm/_read.py`) -/

/-- The `_Metadata` named tuple of `py2dm/_read.py`, together with the
`mesh2d_found` loop flag. -/
structure PMState where
  num_materials_per_elem : Option Int := none
  name : Option String := none
  num_nodes : Nat := 0
  num_elements : Nat := 0
  num_node_strings : Nat := 0
  mesh2d_found : Bool := false
deriving DecidableEq, Repr

/-- One iteration of the `Reader._parse_metadata` loop
(`py2dm/_read.py`, lines 564-597).  Unlike `scan_metadata`, the
branches test the raw line, no ID-sequence bookkeeping is done at all,
and the final branch evaluates `line.split(maxsplit=1)[0]`, which
raises `IndexError` on an all-whitespace line. -/
def pmLine (zero_index : Bool) (st : PMState) (line : String) :
    Except PyErr PMState := do
  let st ← do
    if st.mesh2d_found = false ∧ pyStrip (stripComment line) ≠ "" then
      if pyStartsWith line "MESH2D" then pure { st with mesh2d_found := true }
      else Except.error PyErr.readError
    else pure st
  if pyStartsWith line "NUM_MATERIALS_PER_ELEM" then
    match (pyWords (stripComment line)).get? 1 with
    | none => Except.error PyErr.indexError
    | some tok =>
      match pyInt? tok with
      | none => Except.error PyErr.valueError
      | some v => pure { st with num_materials_per_elem := some v }
  else if pyStartsWith line "MESHNAME" ∨ pyStartsWith line "GM" then
    match (splitQuote line).get? 1 with
    | none => Except.error PyErr.indexError
    | some nm => pure { st with name := some nm }
  else if pyStartsWith line "ND" then
    match (pyWords line).get? 1 with
    | none => Except.error PyErr.indexError
    | some tok =>
      match pyInt? tok with
      | none => Except.error PyErr.valueError
      | some id_ =>
        if id_ = 0 ∧ zero_index = false then Except.error PyErr.formatError
        else pure { st with num_nodes := st.num_nodes + 1 }
  else if pyStartsWith line "NS" ∧ pyContains (stripComment line) '-' then
    pure { st with num_node_strings := st.num_node_strings + 1 }
  else
    match (pyWords line).get? 0 with
    | none => Except.error PyErr.indexError
    | some tok =>
      if tok ∈ elementCards then
        match (pyWords line).get? 1 with
        | none => Except.error PyErr.indexError
        | some tok2 =>
          match pyInt? tok2 with
          | none => Except.error PyErr.valueError
          | some id_ =>
            if id_ = 0 ∧ zero_index = false then Except.error PyErr.formatError
            else pure { st with num_elements := st.num_elements + 1 }
      else pure st

/-- The state of a `py2dm.Reader` object after a successful
`__init__`.  The class has no "closed" flag of any kind. -/
structure Reader where
  materials_per_element : Option Int
  name : Option String
  zero_index : Bool
  lazy : Bool
  num_nodes : Nat
  num_elements : Nat
  num_node_strings : Nat
  cache_nodes : List NodeV
  cache_elements : List ElementV
  cache_node_strings : List NodeString
deriving DecidableEq, Repr

/-- The `Reader._parse_metadata` method of `py2dm/_read.py` (lines
552-599).  Note that it performs no ID-contiguity validation and no
final `MESH2D` check. -/
def Reader.parse_metadata (lines : List String) (zero_index : Bool) :
    Except PyErr PMState :=
  lines.foldlM (pmLine zero_index) {}

/-- The `Reader.__init__` initialiser of `py2dm/_read.py` (lines
81-152).  After the metadata pass, the non-lazy cache construction
evaluates `Node.parse_line(...)` and `_element_factory(l[0]).parse_line(...)`
for each matching line, and the node-string pass evaluates
`NodeString.parse_line(...)` for each `NS` line; none of the classes
imported from `py2dm._entities` define `parse_line` (they define
`from_line`), so the first matching line raises `AttributeError`. -/
def Reader.init (lines : List String) (lazy : Bool := false)
    (materials : Option Int := none) (zero_index : Bool := false) :
    Except PyErr Reader := do
  let data ← Reader.parse_metadata lines zero_index
  let mpe := match materials with
    | some m => some m
    | none => data.num_materials_per_elem
  if lazy = false ∧ lines.any (fun l => pyStartsWith l "ND") then
    Except.error PyErr.attributeError
  else if lazy = false ∧
      lines.any (fun l => elementCards.any (fun c => pyStartsWith l c)) then
    Except.error PyErr.attributeError
  else if lines.any (fun l => pyStartsWith l "NS") then
    Except.error PyErr.attributeError
  else
    pure { materials_per_element := mpe, name := data.name,
           zero_index := zero_index, lazy := lazy,
           num_nodes := data.num_nodes, num_elements := data.num_elements,
           num_node_strings := data.num_node_strings,
           cache_nodes := [], cache_elements := [], cache_node_strings := [] }

/-- The `Reader.close` method of `py2dm/_read.py` (lines 309-322).
Its entire body is `_ = self`: it mutates nothing and invalidates
nothing, despite its docstring's promise that the instance becomes
unusable. -/
def Reader.close (r : Reader) : Reader :=
  r

/-- The `Reader.node` method of `py2dm/_read.py` (lines 351-375):
conform the ID to one-based indexing, check the range (raising
`KeyError`), then read the cache (lazy mode is unimplemented and
raises `NotImplementedError`). -/
def Reader.node (r : Reader) (id_ : Int) : Except PyErr NodeV :=
  let id_conf := if r.zero_index then id_ + 1 else id_
  if ¬(1 ≤ id_conf ∧ id_conf ≤ (r.num_nodes : Int)) then .error .keyError
  else if r.lazy then .error .notImplementedError
  else
    match r.cache_nodes.get? (id_conf - 1).toNat with
    | some n => .ok n
    | none => .error .indexError

/-- Result type of `Reader.extent`: either the `(nan, nan, nan, nan)`
tuple returned for an empty mesh, or a numeric bounding box. -/
inductive Extent4 where
  | nans
  | box (minX maxX minY maxY : ℚ)
deriving DecidableEq, Repr

/-- Clamp one Python slice bound to the list length (negative bounds
count from the end). -/
def pySliceIdx (len : Nat) (i : Int) : Nat :=
  if i < 0 then (max 0 ((len : Int) + i)).toNat else min i.toNat len

/-- Python `l[a:b]` list slicing. -/
def pySlice {α : Type} (l : List α) (a b : Int) : List α :=
  (l.take (pySliceIdx l.length b)).drop (pySliceIdx l.length a)

/-- The `Reader.iter_nodes` method of `py2dm/_read.py` (lines
448-488): an empty tuple for a node-less mesh; otherwise negative
`start`/`end` arguments are replaced by the mode's ID bounds, the
three bounds checks each raise `IndexError`, lazy mode raises
`NotImplementedError`, and the result is the cache slice
`self._cache_nodes[start-offset:end-offset]`.  Note that for a
one-node one-based mesh the defaults give `start = end = 1`, so the
`end <= start` check (lines 477-479) raises `IndexError`. -/
def Reader.iter_nodes (r : Reader) (start : Int := 1) (end_ : Int := -1) :
    Except PyErr (List NodeV) :=
  if r.num_nodes < 1 then .ok []
  else
    let id_min : Int := if r.zero_index then 0 else 1
    let id_max : Int := if r.zero_index then (r.num_nodes : Int) + 1
      else (r.num_nodes : Int)
    let start := if start < 0 then id_min else start
    let end_ := if end_ < 0 then id_max else end_
    if start > id_max then .error .indexError
    else if end_ ≤ start then .error .indexError
    else if end_ > id_max then .error .indexError
    else if r.lazy then .error .notImplementedError
    else
      let offset : Int := if r.zero_index then 1 else 0
      .ok (pySlice r.cache_nodes (start - offset) (end_ - offset))

/-- The `Reader.extent` property of `py2dm/_read.py` (lines 179-219).
The body first evaluates `iter(self.iter_nodes())` outside any
handler, so every `iter_nodes` exception propagates (for a one-node
one-based mesh that is `IndexError`).  If the iterator is empty, the
caught `StopIteration` produces the four-NaN tuple.  Otherwise the
first node is drawn and line 208 evaluates `(*node.x, *node.y)`,
star-unpacking two floats, which raises `TypeError` before any bound
is computed.  Nothing is ever cached: the property body runs on every
access. -/
def Reader.extent (r : Reader) : Except PyErr Extent4 := do
  let nodes ← r.iter_nodes 1 (-1)
  match nodes with
  | [] => pure .nans
  | _ :: _ => .error .typeErr

/-! ## The Writer (`py2dm/_write.py`)

Writer methods both mutate `self` and may raise, so each is modelled
as `Writer → ... → Writer × Except PyErr α`: the returned writer is
the state of `self` when the method returns or when the exception
leaves it.  `Writer.element` additionally returns the list of
warnings emitted through `warnings.warn`.  The text written to the
underlying file is not modelled: no property below inspects it, and
the flush bookkeeping (`_write_history`, cache clearing) is what the
ordering constraints are about. -/

/-- The state of a `py2dm.Writer` object.  `write_history` holds the
same strings the source appends: `"header"`, `"node"`, `"element"`,
`"node string"`. -/
structure Writer where
  closed : Bool
  num_materials : Int
  float_materials : Bool
  zero_index : Bool
  count_nodes : Nat
  count_elements : Nat
  count_node_strings : Nat
  cache_nodes : List NodeV
  cache_elements : List ElementV
  cache_node_strings : List NodeString
  write_history : List String
deriving DecidableEq, Repr

/-- A `Writer` as produced by `Writer.__init__` followed by `open()`:
no materials count configured, float materials allowed, one-based
indexing, empty caches and history. -/
def Writer.fresh : Writer :=
  { closed := false, num_materials := -1, float_materials := true,
    zero_index := false, count_nodes := 0, count_elements := 0,
    count_node_strings := 0, cache_nodes := [], cache_elements := [],
    cache_node_strings := [], write_history := [] }

/-- The condition of `Writer._check_flush_state` (lines 550-564):
`self._write_history and self._write_history[-1] != type_ and
type_ in self._write_history`. -/
def checkFlushState (history : List String) (type_ : String) : Bool :=
  ¬history.isEmpty ∧ history.getLast? ≠ some type_ ∧ type_ ∈ history

/-- The `Writer._update_flush_state` method (lines 577-588): append
`type_` unless it is already the last entry. -/
def updateFlushState (history : List String) (type_ : String) : List String :=
  if history.isEmpty ∨ history.getLast? ≠ some type_ then history ++ [type_]
  else history

/-- The `Writer.write_header` method (lines 522-548): requires an open
file and an empty write history, defaults a negative material count to
zero and records `"header"`. -/
def Writer.write_header (w : Writer) : Writer × Except PyErr Unit :=
  if w.closed then (w, .error .fileIsClosedError)
  else if ¬w.write_history.isEmpty then (w, .error .writeError)
  else
    let w := if w.num_materials < 0 then { w with num_materials := 0 } else w
    ({ w with write_history := w.write_history ++ ["header"] }, .ok ())

/-- Common tail of the three `flush_*` methods: the
`_check_flush_state` test followed by the `_update_flush_state` call
and the cache clear, specialised by the entity's history tag and a
cache-clearing function. -/
def flushTail (type_ : String) (clear : Writer → Writer) (w : Writer) :
    Writer × Except PyErr Unit :=
  if checkFlushState w.write_history type_ then (w, .error .writeError)
  else (clear { w with write_history := updateFlushState w.write_history type_ }, .ok ())

/-- Common head of the three `flush_*` methods: `_require_open`, then
`write_header` when no header has been written yet. -/
def flushHead (w : Writer) : Writer × Except PyErr Unit :=
  if w.closed then (w, .error .fileIsClosedError)
  else if "header" ∈ w.write_history then (w, .ok ())
  else w.write_header

/-- The `Writer.flush_nodes` method (lines 486-502). -/
def Writer.flush_nodes (w : Writer) : Writer × Except PyErr Unit :=
  match flushHead w with
  | (w, .error e) => (w, .error e)
  | (w, .ok ()) => flushTail "node" (fun w => { w with cache_nodes := [] }) w

/-- The `Writer.flush_elements` method (lines 468-484). -/
def Writer.flush_elements (w : Writer) : Writer × Except PyErr Unit :=
  match flushHead w with
  | (w, .error e) => (w, .error e)
  | (w, .ok ()) => flushTail "element" (fun w => { w with cache_elements := [] }) w

/-- The `Writer.flush_node_strings` method (lines 504-520). -/
def Writer.flush_node_strings (w : Writer) : Writer × Except PyErr Unit :=
  match flushHead w with
  | (w, .error e) => (w, .error e)
  | (w, .ok ()) => flushTail "node string" (fun w => { w with cache_node_strings := [] }) w

/-- The `Writer.node` method of `py2dm/_write.py` (lines 371-384),
instance overload: `_require_open`, `_check_flush_state('node')`,
deep copy, auto-ID for a negative ID
(`node.id = self.num_nodes - self._zero_index + 1`), buffer append. -/

def Writer.node (w : Writer) (node : NodeV) : Writer × Except PyErr Int :=
  if w.closed then (w, .error .fileIsClosedError)
  else if checkFlushState w.write_history "node" then (w, .error .writeError)
  else
    let node := if node.id < 0 then
        { node with id := (w.count_nodes : Int) - (if w.zero_index then 1 else 0) + 1 }
      else node
    ({ w with cache_nodes := w.cache_nodes ++ [node],
              count_nodes := w.count_nodes + 1 }, .ok node.id)

/-- Final steps of `Writer.element` (lines 290-296): the
float-material check (`ValueError` when a non-int material is present
and float material IDs are disallowed), then the buffer append and
count increment. -/
def elementFinish (w : Writer) (e : ElementV) (warns : List String) :
    Writer × List String × Except PyErr Int :=
  if w.float_materials = false ∧ e.materials.any Mat.isFloat then
    (w, warns, .error .valueError)
  else
    ({ w with cache_elements := w.cache_elements ++ [e],
              count_elements := w.count_elements + 1 }, warns, .ok e.id)

/-- The `Writer.element` method of `py2dm/_write.py` (lines 266-296),
instance overload.  After the open/flush-state checks and the deep
copy, a negative ID is replaced by
`self.num_elements - self._zero_index + 1`; then the material-count
logic runs: an unset (negative) `_num_materials` is fixed to this
element's count, fewer materials than the fixed count raise
`ValueError`, more are truncated to the fixed count after emitting a
`Py2DMWarning`. -/

def Writer.element (w : Writer) (element : ElementV) :
    Writer × List String × Except PyErr Int :=
  if w.closed then (w, [], .error .fileIsClosedError)
  else if checkFlushState w.write_history "element" then (w, [], .error .writeError)
  else
    let element := if element.id < 0 then
        { element with id := (w.count_elements : Int) - (if w.zero_index then 1 else 0) + 1 }
      else element
    if w.num_materials < 0 then
      elementFinish { w with num_materials := (element.materials.length : Int) }
        element []
    else if (element.materials.length : Int) < w.num_materials then
      (w, [], .error .valueError)
    else if (element.materials.length : Int) > w.num_materials then
      elementFinish w
        { element with materials := element.materials.take w.num_materials.toNat }
        ["extraneous materials removed"]
    else elementFinish w element []

/-- The `Writer.node_string` method of `py2dm/_write.py` (lines
455-466), instance overload: open/flush-state checks, deep copy,
buffer append; the incremented node-string count is returned. -/
def Writer.node_string (w : Writer) (node_string : NodeString) :
    Writer × Except PyErr Int :=
  if w.closed then (w, .error .fileIsClosedError)
  else if checkFlushState w.write_history "node string" then (w, .error .writeError)
  else
    ({ w with cache_node_strings := w.cache_node_strings ++ [node_string],
              count_node_strings := w.count_node_strings + 1 },
     .ok ((w.count_node_strings : Int) + 1))

/-! ## Object-identity model for the insertion methods

Python passes entities by reference, and `Writer.node` /
`Writer.element` / `Writer.node_string` start by `copy.deepcopy`-ing
the argument.  To state that the caller's object is never mutated, the
same three methods are modelled once more over an explicit store of
objects addressed by index: `copy.deepcopy` allocates a fresh address
holding the same value, and the attribute assignments
(`node.id = ...`, `element.id = ...`, `element.materials = ...`) are
in-place writes at that fresh address. -/

/-- `Writer.node` on a store of `Node` objects, with the argument
passed as the address `r` of the caller's object. -/
def Writer.nodeRef (w : Writer) (store : List NodeV) (r : Nat) :
    (Writer × List NodeV) × Except PyErr Int :=
  if w.closed then ((w, store), .error .fileIsClosedError)
  else if checkFlushState w.write_history "node" then ((w, store), .error .writeError)
  else
    match store[r]? with
    | none => ((w, store), .error .indexError)
    | some v =>
      let a := store.length
      let store := store ++ [v]
      let auto : NodeV :=
        { v with id := (w.count_nodes : Int) - (if w.zero_index then 1 else 0) + 1 }
      let store := if v.id < 0 then store.set a auto else store
      let node := if v.id < 0 then auto else v
      (({ w with cache_nodes := w.cache_nodes ++ [node],
                 count_nodes := w.count_nodes + 1 }, store), .ok node.id)

/-- `Writer.element` on a store of `Element` objects. -/
def Writer.elementRef (w : Writer) (store : List ElementV) (r : Nat) :
    (Writer × List ElementV) × Except PyErr Int :=
  if w.closed then ((w, store), .error .fileIsClosedError)
  else if checkFlushState w.write_history "element" then ((w, store), .error .writeError)
  else
    match store[r]? with
    | none => ((w, store), .error .indexError)
    | some v =>
      let a := store.length
      let store := store ++ [v]
      let auto : ElementV :=
        { v with id := (w.count_elements : Int) - (if w.zero_index then 1 else 0) + 1 }
      let store := if v.id < 0 then store.set a auto else store
      let e := if v.id < 0 then auto else v
      if w.num_materials < 0 then
        let w := { w with num_materials := (e.materials.length : Int) }
        if w.float_materials = false ∧ e.materials.any Mat.isFloat then
          ((w, store), .error .valueError)
        else
          (({ w with cache_elements := w.cache_elements ++ [e],
                     count_elements := w.count_elements + 1 }, store), .ok e.id)
      else if (e.materials.length : Int) < w.num_materials then
        ((w, store), .error .valueError)
      else
        let trunc : ElementV :=
          { e with materials := e.materials.take w.num_materials.toNat }
        let store := if (e.materials.length : Int) > w.num_materials then
            store.set a trunc else store
        let e := if (e.materials.length : Int) > w.num_materials then trunc else e
        if w.float_materials = false ∧ e.materials.any Mat.isFloat then
          ((w, store), .error .valueError)
        else
          (({ w with cache_elements := w.cache_elements ++ [e],
                     count_elements := w.count_elements + 1 }, store), .ok e.id)

/-- `Writer.node_string` on a store of `NodeString` objects. -/
def Writer.node_stringRef (w : Writer) (store : List NodeString) (r : Nat) :
    (Writer × List NodeString) × Except PyErr Int :=
  if w.closed then ((w, store), .error .fileIsClosedError)
  else if checkFlushState w.write_history "node string" then
    ((w, store), .error .writeError)
  else
    match store[r]? with
    | none => ((w, store), .error .indexError)
    | some v =>
      let store := store ++ [v]
      (({ w with cache_node_strings := w.cache_node_strings ++ [v],
                 count_node_strings := w.count_node_strings + 1 }, store),
       .ok ((w.count_node_strings : Int) + 1))

/-! ## Concrete mesh states used by the theorems -/

/-- A sample node, as held by a reader cache. -/
def sampleNode : NodeV :=
  { id := 1, x := 1, y := 2, z := 3 }

/-- A reader state for a one-node mesh (the state the class is
documented to hold after loading such a mesh). -/
def sampleReader : Reader :=
  { materials_per_element := none, name := none, zero_index := false,
    lazy := false, num_nodes := 1, num_elements := 0, num_node_strings := 0,
    cache_nodes := [sampleNode], cache_elements := [], cache_node_strings := [] }

/-- A reader state for a two-node mesh. -/
def twoNodeReader : Reader :=
  { materials_per_element := none, name := none, zero_index := false,
    lazy := false, num_nodes := 2, num_elements := 0, num_node_strings := 0,
    cache_nodes := [sampleNode, { id := 2, x := 4, y := 5, z := 6 }],
    cache_elements := [], cache_node_strings := [] }

/-- A reader state for an empty mesh. -/
def emptyReader : Reader :=
  { materials_per_element := none, name := none, zero_index := false,
    lazy := false, num_nodes := 0, num_elements := 0, num_node_strings := 0,
    cache_nodes := [], cache_elements := [], cache_node_strings := [] }

/-- A 2DM file whose node IDs are 1, 2, 5: the ID sequence has a gap. -/
def gapFile : List String :=
  ["MESH2D", "ND 1 0.0 0.0 0.0", "ND 2 0.0 0.0 0.0", "ND 5 0.0 0.0 0.0"]

/-- A 2DM file whose node IDs are 5, 6: contiguous and increasing, but
not starting at the one-based base. -/
def offsetFile : List String :=
  ["MESH2D", "ND 5 0.0 0.0 0.0", "ND 6 0.0 0.0 0.0"]

/-- An element with three integer materials. -/
def eThreeMats : ElementV :=
  { card := "E3T", num_nodes := 3, id := 1, nodes := [2, 3, 4],
    materials := [.int 1, .int 2, .int 3] }

/-- An element with a single integer material. -/
def eOneMat : ElementV :=
  { card := "E3T", num_nodes := 3, id := 2, nodes := [2, 3, 4],
    materials := [.int 7] }

/-- A fresh writer configured with `materials=2`. -/
def wTwoMats : Writer :=
  { Writer.fresh with num_materials := 2 }

/-! ## Block-write ordering (C4) -/

/-- The three entity kinds as tagged in `_write_history`. -/
def flushKinds : List String := ["node", "element", "node string"]

/-- Kind-indexed dispatch to the three `flush_*` methods, used to
state the ordering property uniformly. -/
def flushOf (kind : String) : Writer → Writer × Except PyErr Unit :=
  if kind = "node" then Writer.flush_nodes
  else if kind = "element" then Writer.flush_elements
  else if kind = "node string" then Writer.flush_node_strings
  else fun w => (w, .error .valueError)

/-- Kind-indexed statement that inserting an entity of the given kind
into the writer raises `WriteError`, for every possible payload. -/
def insertRaisesWriteError (w : Writer) (kind : String) : Prop :=
  if kind = "node" then
    ∀ nd : NodeV, (Writer.node w nd).2 = .error .writeError
  else if kind = "element" then
    ∀ e : ElementV, (Writer.element w e).2.2 = .error .writeError
  else if kind = "node string" then
    ∀ ns : NodeString, (Writer.node_string w ns).2 = .error .writeError
  else True

/-- The writer state after `flush_nodes()` on a fresh writer: the
header was written (defaulting the material count to zero) and the
history reads `["header", "node"]`. -/
def wAfterNodeFlush : Writer :=
  { Writer.fresh with num_materials := 0, write_history := ["header", "node"] }

/-- The writer state after `flush_nodes()` then `flush_elements()` on
a fresh writer. -/
def wAfterNodeElemFlush : Writer :=
  { Writer.fresh with
    num_materials := 0
    write_history := ["header", "node", "element"] }

/-- A node string entity used by the C10 witness. -/
def nsWitness : NodeString := { nodes := [1, 2, 3], name := some "left bank" }

/-! ## Continuation idempotence (C6) -/

/-- The integer value of a token whose `int()` parse succeeds
(defaulting to zero otherwise). -/
def tokVal (t : String) : Int :=
  (pyInt? t).getD 0

/-- A well-formed non-terminating data token of an NS line: it parses
as a non-negative integer, zero being allowed only in zero-index
mode. -/
def goodTok (allow_zero_index : Bool) (t : String) : Bool :=
  match pyInt? t with
  | some n => decide (0 ≤ n) && (allow_zero_index || decide (n ≠ 0))
  | none => false

example : pyInt? "-42" = some (-42) := by decide

example : pyInt? "+7" = some 7 := by decide

example : pyInt? "1.0" = none := by decide

example : pyFloat? "1.0" = some 1 := by decide

example : pyFloat? "-2.5" = some (mkRat (-5) 2) := by decide

example : pyFloat? "1.000000e+00" = some 1 := by decide

example : pyTokens "ND 1 2.0 3.0 4.0 # comment" = ["ND", "1", "2.0", "3.0", "4.0"] := by decide

example : stripQuotes "\"ipsum\"" = "ipsum" := by decide

example : pyStartsWith "MESH2D # x" "MESH2D" = true := by decide

example : pyStrip "  ND 1 " = "ND 1" := by decide

example : splitQuote "MESHNAME \"the mesh\"" = ["MESHNAME ", "the mesh", ""] := by decide

example : parse_node "ND 1 1.0 2.0 3.0" = .ok (1, 1, 2, 3) := by decide

example : parse_element "E3T 1 2 3 4" = .ok (1, [2, 3, 4], []) := by decide

example : parse_element "E3T 1 2 3 4 5 6.5" = .ok (1, [2, 3, 4], [.int 5, .flt (mkRat 13 2)]) := by
  decide

example : parse_node_string "NS 1 2 3 -4" = .ok ([1, 2, 3, 4], true, "") := by decide

example : parse_node_string "NS 1 2 -3 label x" = .ok ([1, 2, 3], true, "label") := by decide

example : NodeString.from_line "NS 1 2 3 -4" =
    .ok ({ nodes := [1, 2, 3, 4], name := none }, true) := by decide

example : feedAll false none ["NS 1 2 3 4 5", "NS 6 -7 mylabel"] =
    .ok ({ nodes := [1, 2, 3, 4, 5, 6, 7], name := some "mylabel" }, true) := by decide

lemma updateFlushState_getLast? (h : List String) (t : String) :
    (updateFlushState h t).getLast? = some t := by
  unfold updateFlushState
  split
  · exact List.getLast?_concat h
  · next hcond =>
    push_neg at hcond
    exact hcond.2.symm ▸ rfl

lemma updateFlushState_mem_of (h : List String) (t s : String) (hs : s ∈ h) :
    s ∈ updateFlushState h t := by
  unfold updateFlushState
  split
  · exact List.mem_append_left _ hs
  · exact hs

lemma flushHead_ok (w w1 : Writer) (h : flushHead w = (w1, .ok ())) :
    w1.closed = false ∧ (∀ s ∈ w.write_history, s ∈ w1.write_history) := by
  unfold flushHead at h
  by_cases hc : w.closed
  · rw [if_pos hc] at h
    cases h
  · rw [if_neg hc] at h
    by_cases hh : "header" ∈ w.write_history
    · rw [if_pos hh] at h
      cases h
      exact ⟨by simpa using hc, fun s hs => hs⟩
    · rw [if_neg hh] at h
      unfold Writer.write_header at h
      rw [if_neg hc] at h
      by_cases he : w.write_history.isEmpty
      · rw [if_neg (by simp [he])] at h
        cases h
        have hnil : w.write_history = [] := by simpa using he
        refine ⟨?_, fun s hs => by simp [hnil] at hs⟩
        split <;> simpa using hc
      · rw [if_pos (by simpa using he)] at h
        cases h

lemma flushTail_ok (t : String) (clear : Writer → Writer)
    (hch : ∀ v, (clear v).write_history = v.write_history)
    (hcc : ∀ v, (clear v).closed = v.closed)
    (w w1 : Writer) (h : flushTail t clear w = (w1, .ok ())) :
    w1.closed = w.closed ∧ w1.write_history = updateFlushState w.write_history t := by
  unfold flushTail at h
  split at h
  · cases h
  · cases h
    exact ⟨hcc _, hch _⟩

lemma mem_of_getLast?_eq {l : List String} {a : String}
    (h : l.getLast? = some a) : a ∈ l := by
  obtain ⟨hne, heq⟩ := List.mem_getLast?_eq_getLast h
  exact heq ▸ List.getLast_mem hne

lemma flush_nodes_ok (w w1 : Writer) (h : Writer.flush_nodes w = (w1, .ok ())) :
    w1.closed = false ∧ w1.write_history.getLast? = some "node" ∧
    "node" ∈ w1.write_history ∧ ∀ s ∈ w.write_history, s ∈ w1.write_history := by
  unfold Writer.flush_nodes at h
  rcases hhd : flushHead w with ⟨wh, r⟩
  rw [hhd] at h
  cases r with
  | error e => cases h
  | ok u =>
    cases u
    obtain ⟨hc, hmem⟩ := flushHead_ok w wh hhd
    obtain ⟨hc', hh'⟩ := flushTail_ok "node" (fun v => { v with cache_nodes := [] })
      (fun v => rfl) (fun v => rfl) wh w1 h
    refine ⟨hc' ▸ hc, hh' ▸ updateFlushState_getLast? _ _, ?_, ?_⟩
    · rw [hh']
      unfold updateFlushState
      split
      · simp
      · next hcond =>
        push_neg at hcond
        exact mem_of_getLast?_eq hcond.2
    · intro s hs
      rw [hh']
      exact updateFlushState_mem_of _ _ _ (hmem s hs)

lemma flush_elements_ok (w w1 : Writer) (h : Writer.flush_elements w = (w1, .ok ())) :
    w1.closed = false ∧ w1.write_history.getLast? = some "element" ∧
    "element" ∈ w1.write_history ∧ ∀ s ∈ w.write_history, s ∈ w1.write_history := by
  unfold Writer.flush_elements at h
  rcases hhd : flushHead w with ⟨wh, r⟩
  rw [hhd] at h
  cases r with
  | error e => cases h
  | ok u =>
    cases u
    obtain ⟨hc, hmem⟩ := flushHead_ok w wh hhd
    obtain ⟨hc', hh'⟩ := flushTail_ok "element" (fun v => { v with cache_elements := [] })
      (fun v => rfl) (fun v => rfl) wh w1 h
    refine ⟨hc' ▸ hc, hh' ▸ updateFlushState_getLast? _ _, ?_, ?_⟩
    · rw [hh']
      unfold updateFlushState
      split
      · simp
      · next hcond =>
        push_neg at hcond
        exact mem_of_getLast?_eq hcond.2
    · intro s hs
      rw [hh']
      exact updateFlushState_mem_of _ _ _ (hmem s hs)

lemma flush_node_strings_ok (w w1 : Writer)
    (h : Writer.flush_node_strings w = (w1, .ok ())) :
    w1.closed = false ∧ w1.write_history.getLast? = some "node string" ∧
    "node string" ∈ w1.write_history ∧ ∀ s ∈ w.write_history, s ∈ w1.write_history := by
  unfold Writer.flush_node_strings at h
  rcases hhd : flushHead w with ⟨wh, r⟩
  rw [hhd] at h
  cases r with
  | error e => cases h
  | ok u =>
    cases u
    obtain ⟨hc, hmem⟩ := flushHead_ok w wh hhd
    obtain ⟨hc', hh'⟩ := flushTail_ok "node string"
      (fun v => { v with cache_node_strings := [] }) (fun v => rfl) (fun v => rfl) wh w1 h
    refine ⟨hc' ▸ hc, hh' ▸ updateFlushState_getLast? _ _, ?_, ?_⟩
    · rw [hh']
      unfold updateFlushState
      split
      · simp
      · next hcond =>
        push_neg at hcond
        exact mem_of_getLast?_eq hcond.2
    · intro s hs
      rw [hh']
      exact updateFlushState_mem_of _ _ _ (hmem s hs)

lemma checkFlushState_true {h : List String} {t : String}
    (h1 : t ∈ h) (h2 : h.getLast? ≠ some t) : checkFlushState h t = true := by
  have hne : ¬h.isEmpty := by
    simp [List.isEmpty_iff]
    exact List.ne_nil_of_mem h1
  simp [checkFlushState, h1, h2, hne]

lemma node_insert_raises (w : Writer) (hc : w.closed = false)
    (hk : checkFlushState w.write_history "node" = true) :
    ∀ nd : NodeV, (Writer.node w nd).2 = .error .writeError := by
  intro nd
  simp [Writer.node, hc, hk]

lemma element_insert_raises (w : Writer) (hc : w.closed = false)
    (hk : checkFlushState w.write_history "element" = true) :
    ∀ e : ElementV, (Writer.element w e).2.2 = .error .writeError := by
  intro e
  simp [Writer.element, hc, hk]

lemma node_string_insert_raises (w : Writer) (hc : w.closed = false)
    (hk : checkFlushState w.write_history "node string" = true) :
    ∀ ns : NodeString, (Writer.node_string w ns).2 = .error .writeError := by
  intro ns
  simp [Writer.node_string, hc, hk]

lemma insert_raises_after (w2 : Writer) (K L : String) (hKL : K ≠ L)
    (hc : w2.closed = false) (hlast : w2.write_history.getLast? = some L)
    (hmem : K ∈ w2.write_history) (hK : K ∈ flushKinds) :
    insertRaisesWriteError w2 K := by
  have hck : checkFlushState w2.write_history K = true := by
    refine checkFlushState_true hmem ?_
    rw [hlast]
    simp only [ne_eq, Option.some.injEq]
    exact fun h => hKL h.symm
  simp only [flushKinds, List.mem_cons, List.not_mem_nil, or_false] at hK
  rcases hK with rfl | rfl | rfl
  · unfold insertRaisesWriteError
    rw [if_pos rfl]
    exact node_insert_raises w2 hc hck
  · unfold insertRaisesWriteError
    rw [if_neg (by decide), if_pos rfl]
    exact element_insert_raises w2 hc hck
  · unfold insertRaisesWriteError
    rw [if_neg (by decide), if_neg (by decide), if_pos rfl]
    exact node_string_insert_raises w2 hc hck

lemma flushOf_ok (K : String) (hK : K ∈ flushKinds) (w w1 : Writer)
    (h : flushOf K w = (w1, .ok ())) :
    w1.closed = false ∧ w1.write_history.getLast? = some K ∧
    K ∈ w1.write_history ∧ ∀ s ∈ w.write_history, s ∈ w1.write_history := by
  simp only [flushKinds, List.mem_cons, List.not_mem_nil, or_false] at hK
  rcases hK with rfl | rfl | rfl
  · unfold flushOf at h
    rw [if_pos rfl] at h
    exact flush_nodes_ok w w1 h
  · unfold flushOf at h
    rw [if_neg (by decide), if_pos rfl] at h
    exact flush_elements_ok w w1 h
  · unfold flushOf at h
    rw [if_neg (by decide), if_neg (by decide), if_pos rfl] at h
    exact flush_node_strings_ok w w1 h

lemma goodTok_spec {zero : Bool} {t : String} (h : goodTok zero t = true) :
    pyInt? t = some (tokVal t) ∧ 0 ≤ tokVal t ∧ ¬(tokVal t = 0 ∧ zero = false) := by
  unfold goodTok at h
  cases hp : pyInt? t with
  | none => rw [hp] at h; cases h
  | some n =>
    rw [hp] at h
    simp only [Bool.and_eq_true, decide_eq_true_eq, Bool.or_eq_true, ne_eq] at h
    have hv : tokVal t = n := by
      unfold tokVal
      rw [hp]
      rfl
    rw [hv]
    refine ⟨rfl, h.1, ?_⟩
    rintro ⟨h0, hz⟩
    rcases h.2 with hz' | hn
    · rw [hz] at hz'
      cases hz'
    · exact hn h0

lemma nsLoop_append (zero : Bool) (xs ys : List String) (acc : List Int)
    (hx : ∀ t ∈ xs, goodTok zero t = true) :
    nsLoop zero acc (xs ++ ys) = nsLoop zero (acc ++ xs.map tokVal) ys := by
  induction xs generalizing acc with
  | nil => simp
  | cons t ts ih =>
    obtain ⟨hp, hnn, hz⟩ := goodTok_spec (hx t (by simp))
    rw [List.cons_append, List.map_cons]
    simp only [nsLoop, hp]
    rw [if_neg hz, if_neg (by omega)]
    rw [ih _ (fun u hu => hx u (by simp [hu]))]
    congr 1
    simp

lemma nsLoop_extends (zero : Bool) : ∀ (toks : List String) (acc ns' : List Int)
    (d : Bool) (nm : String), nsLoop zero acc toks = .ok (ns', d, nm) →
    ∃ ext, ns' = acc ++ ext := by
  intro toks
  induction toks with
  | nil =>
    intro acc ns' d nm h
    simp only [nsLoop] at h
    cases h
    exact ⟨[], by simp⟩
  | cons t ts ih =>
    intro acc ns' d nm h
    cases hp : pyInt? t with
    | none =>
      simp only [nsLoop, hp] at h
      cases h
    | some n =>
      simp only [nsLoop, hp] at h
      by_cases h0 : n = 0 ∧ zero = false
      · rw [if_pos h0] at h
        cases h
      · rw [if_neg h0] at h
        by_cases hneg : n < 0
        · rw [if_pos hneg] at h
          cases h
          exact ⟨[-n], rfl⟩
        · rw [if_neg hneg] at h
          obtain ⟨ext, hext⟩ := ih _ _ _ _ h
          exact ⟨n :: ext, by simp [hext]⟩

lemma parse_chunks_benign (zero : Bool) (data : List String) (init : List Int)
    (hne : data ≠ []) (hx : ∀ t ∈ data, goodTok zero t = true) :
    parse_node_string_chunks ("NS" :: data) zero init =
      .ok (init ++ data.map tokVal, false, "") := by
  unfold parse_node_string_chunks
  rw [if_neg (by cases data with | nil => exact absurd rfl hne | cons a l => simp)]
  rw [if_neg (by simp)]
  have h := nsLoop_append zero data [] init hx
  simpa [nsLoop] using h

lemma from_line_mid (zero : Bool) (data : List String) (ns : NodeString)
    (hne : data ≠ []) (hx : ∀ t ∈ data, goodTok zero t = true) :
    NodeString.from_line_chunks ("NS" :: data) (some ns) zero =
      .ok ({ ns with nodes := ns.nodes ++ data.map tokVal }, false) := by
  simp [NodeString.from_line_chunks, parse_chunks_benign zero data ns.nodes hne hx]

lemma from_line_first (zero : Bool) (data : List String) (h2 : 2 ≤ data.length)
    (hx : ∀ t ∈ data, goodTok zero t = true) :
    NodeString.from_line_chunks ("NS" :: data) none zero =
      .ok ({ nodes := data.map tokVal, name := none }, false) := by
  have hne : data ≠ [] := by
    cases data with
    | nil => simp at h2
    | cons a l => simp
  have hlen : ¬(data.map tokVal).length < 2 := by
    simp
    omega
  simp only [NodeString.from_line_chunks, parse_chunks_benign zero data [] hne hx,
    Bind.bind, Except.bind, Functor.map, Except.map, NodeString.mkChecked,
    List.nil_append]
  rw [if_neg hlen]
  rfl

lemma bind_ok_reduce {e a b : Type} (x : a) (f : a → Except e b) :
    ((Except.ok x : Except e a) >>= f) = f x :=
  rfl

lemma bind_error_reduce {e a b : Type} (err : e) (f : a → Except e b) :
    ((Except.error err : Except e a) >>= f) = Except.error err :=
  rfl

lemma from_line_some (zero : Bool) (chunks : List String) (ns : NodeString)
    (h2 : ¬chunks.length < 2) (hhd : chunks.headD "" = "NS") :
    NodeString.from_line_chunks chunks (some ns) zero =
      (match nsLoop zero ns.nodes chunks.tail with
       | .error e => .error e
       | .ok (nodes, _d, nm) =>
         .ok ((if nm ≠ "" then { ns with nodes := nodes, name := some (stripQuotes nm) }
               else { ns with nodes := nodes }), _d)) := by
  unfold NodeString.from_line_chunks parse_node_string_chunks
  simp only []
  rw [if_neg h2, if_neg (by simpa using hhd)]
  cases hp : nsLoop zero ns.nodes chunks.tail with
  | error e => rfl
  | ok res =>
    obtain ⟨nodes, d, nm⟩ := res
    rfl

lemma from_line_none (zero : Bool) (chunks : List String)
    (h2 : ¬chunks.length < 2) (hhd : chunks.headD "" = "NS") :
    NodeString.from_line_chunks chunks none zero =
      (match nsLoop zero [] chunks.tail with
       | .error e => .error e
       | .ok (nodes, _d, nm) =>
         if nodes.length < 2 then .error .cardError
         else .ok ((if nm ≠ "" then { nodes := nodes, name := some (stripQuotes nm) }
                    else { nodes := nodes, name := none }), _d)) := by
  unfold NodeString.from_line_chunks parse_node_string_chunks
  simp only []
  rw [if_neg h2, if_neg (by simpa using hhd)]
  cases hp : nsLoop zero [] chunks.tail with
  | error e => rfl
  | ok res =>
    obtain ⟨nodes, d, nm⟩ := res
    simp only [NodeString.mkChecked, bind_ok_reduce]
    split
    · rfl
    · rfl

lemma ns_cons_len {a : List String} (x : String) (hne : a ≠ []) :
    ¬(x :: a).length < 2 := by
  cases a with
  | nil => exact absurd rfl hne
  | cons b l => simp

lemma from_line_absorb (zero : Bool) (m rest : List String) (ns : NodeString)
    (hm : m ≠ []) (hx : ∀ t ∈ m, goodTok zero t = true) (hrest : rest ≠ []) :
    NodeString.from_line_chunks ("NS" :: (m ++ rest)) (some ns) zero =
      NodeString.from_line_chunks ("NS" :: rest)
        (some { ns with nodes := ns.nodes ++ m.map tokVal }) zero := by
  rw [from_line_some zero _ ns
      (ns_cons_len _ (by cases m with | nil => exact absurd rfl hm | cons a l => simp))
      rfl,
    from_line_some zero _ _ (ns_cons_len _ hrest) rfl]
  simp only [List.tail_cons]
  rw [nsLoop_append zero m rest ns.nodes hx]

lemma from_line_none_absorb (zero : Bool) (first rest : List String)
    (h2 : 2 ≤ first.length) (hx : ∀ t ∈ first, goodTok zero t = true)
    (hrest : rest ≠ []) :
    NodeString.from_line_chunks ("NS" :: (first ++ rest)) none zero =
      NodeString.from_line_chunks ("NS" :: rest)
        (some { nodes := first.map tokVal, name := none }) zero := by
  have hfne : first ≠ [] := by
    cases first with
    | nil => simp at h2
    | cons a l => simp
  rw [from_line_none zero _
      (ns_cons_len _ (by cases first with | nil => exact absurd rfl hfne | cons a l => simp))
      rfl,
    from_line_some zero _ _ (ns_cons_len _ hrest) rfl]
  simp only [List.tail_cons]
  rw [nsLoop_append zero first rest [] hx]
  simp only [List.nil_append]
  cases hp : nsLoop zero (first.map tokVal) rest with
  | error e => rfl
  | ok res =>
    obtain ⟨nodes, d, nm⟩ := res
    obtain ⟨ext, hext⟩ := nsLoop_extends zero rest _ _ _ _ hp
    have hlen : ¬nodes.length < 2 := by
      rw [hext]
      simp
      omega
    simp only []
    rw [if_neg hlen]

lemma feedAllChunks_single (zero : Bool) (acc : Option NodeString) (c : List String) :
    feedAllChunks zero acc [c] = NodeString.from_line_chunks c acc zero := by
  unfold feedAllChunks
  cases hp : NodeString.from_line_chunks c acc zero with
  | error e => rfl
  | ok p =>
    obtain ⟨ns, d⟩ := p
    rfl

lemma feed_mids (zero : Bool) : ∀ (mids : List (List String)) (last' : List String)
    (ns : NodeString),
    (∀ l ∈ mids, l ≠ [] ∧ ∀ t ∈ l, goodTok zero t = true) → last' ≠ [] →
    feedAllChunks zero (some ns) ((mids ++ [last']).map (fun d => "NS" :: d)) =
      NodeString.from_line_chunks ("NS" :: (mids.flatten ++ last')) (some ns) zero := by
  intro mids
  induction mids with
  | nil =>
    intro last' ns _hm _hl
    simpa using feedAllChunks_single zero (some ns) ("NS" :: last')
  | cons m ms ih =>
    intro last' ns hm hl
    obtain ⟨hmne, hmg⟩ := hm m (by simp)
    have hrest_ne : (List.map (fun d => "NS" :: d) (ms ++ [last'])) ≠ [] := by simp
    have hjoin_ne : ms.flatten ++ last' ≠ [] := by
      cases last' with
      | nil => exact absurd rfl hl
      | cons a l => simp
    calc feedAllChunks zero (some ns)
          (((m :: ms) ++ [last']).map (fun d => "NS" :: d))
        = feedAllChunks zero
            (some { ns with nodes := ns.nodes ++ m.map tokVal })
            ((ms ++ [last']).map (fun d => "NS" :: d)) := by
          simp only [List.cons_append, List.map_cons]
          conv_lhs => unfold feedAllChunks
          rw [from_line_mid zero m ns hmne hmg]
          simp only [bind_ok_reduce]
          rw [if_neg (by simp)]
      _ = NodeString.from_line_chunks ("NS" :: (ms.flatten ++ last'))
            (some { ns with nodes := ns.nodes ++ m.map tokVal }) zero :=
          ih last' _ (fun l hlm => hm l (by simp [hlm])) hl
      _ = NodeString.from_line_chunks ("NS" :: ((m :: ms).flatten ++ last'))
            (some ns) zero := by
          rw [← from_line_absorb zero m (ms.flatten ++ last') ns hmne hmg hjoin_ne]
          simp [List.append_assoc]

/-- C1.  Round-trip claim: for every mesh file accepted by `Reader`,
re-writing all of its entities through `Writer` and re-reading yields
an entity-for-entity equal mesh.  The code cannot perform the claimed
round trip at all: `Reader.__init__` (non-lazy, the default) builds
its caches by calling `Node.parse_line` / `<Element>.parse_line` /
`NodeString.parse_line` (`py2dm/_read.py`, lines 138-152), methods the
classes imported from `py2dm._entities` do not define (they define
`from_line`), so opening any mesh that contains a node, element or
node string raises `AttributeError` and no entity can ever be obtained
from a `Reader`.  This theorem evaluates `Reader.__init__` at the
smallest node-bearing mesh. -/
theorem reader_init_raises_attribute_error_on_any_node :
    Reader.init ["MESH2D", "ND 1 1.0 2.0 3.0"] false none false =
      .error .attributeError := by
  decide

/-- C2.  ID-contiguity claim: node/element IDs of accepted files form
`[base, base+num)` and any gap makes `open()` fail with `FormatError`.
The code disagrees on both halves: (1) `Reader._parse_metadata`, the
only validation `open()` runs, does no ID-sequence checking, so a lazy
reader opens the gapped file `gapFile` (node IDs 1, 2, 5)
successfully; (2) the standalone `scan_metadata` helper does raise
`FormatError` on that file, but `Reader` never calls it, and it
accepts `offsetFile` (node IDs 5, 6), whose IDs do not form
`[1, 1+num_nodes)`. -/
theorem open_accepts_gapped_ids :
    Reader.init gapFile true none false =
      .ok { materials_per_element := none, name := none, zero_index := false,
            lazy := true, num_nodes := 3, num_elements := 0,
            num_node_strings := 0, cache_nodes := [], cache_elements := [],
            cache_node_strings := [] } ∧
    scan_metadata gapFile false = .error .formatError ∧
    scan_metadata offsetFile false =
      .ok { num_materials_per_elem := none, name := none, num_nodes := 2,
            num_elements := 0, num_node_strings := 0, mesh2d_found := true,
            last_node := 6, last_element := -1, nodes_start := 6,
            elements_start := 0, node_strings_start := 0, tell := 41 } := by
  refine ⟨by decide, by decide, by decide⟩

/-- C5.  Node-string terminator claim: after the first negative token,
one following token becomes the name (stripped of double quotes), and
several following tokens are re-joined with spaces into a multi-word
name with a format warning.  The code keeps only the single token
immediately after the terminator (`name = chunks[index+2]`,
`py2dm/_parser.py` line 146) and silently discards the rest: the
multi-word input below yields the name `"string2"`, not
`"string2 string3"`, and `parse_node_string` has no warning mechanism
at all.  The single-token and no-token behaviours are as claimed. -/
theorem node_string_name_keeps_single_token :
    NodeString.from_line "NS 1 2 3 4 5 6 7 8 9 -10 string2 string3" none false =
      .ok ({ nodes := [1, 2, 3, 4, 5, 6, 7, 8, 9, 10],
             name := some "string2" }, true) ∧
    NodeString.from_line "NS 1 2 -3 \"ipsum\"" none false =
      .ok ({ nodes := [1, 2, 3], name := some "ipsum" }, true) ∧
    NodeString.from_line "NS 1 2 -3" none false =
      .ok ({ nodes := [1, 2, 3], name := none }, true) := by
  refine ⟨by decide, by decide, by decide⟩

/-- C6 counterexample.  Feeding the physical lines `NS 1` and
`NS 2 -3` one at a time raises `CardError` (the first call constructs
a `NodeString` from a single node, below the two-node minimum of
`NodeString.__init__`), while the pre-joined line `NS 1 2 -3` parses
to the node string `(1, 2, 3)`, so the two routes are not
equivalent. -/
theorem continuation_differs_on_short_first_line :
    feedAll false none ["NS 1", "NS 2 -3"] ≠
      NodeString.from_line "NS 1 2 -3" none false := by
  decide

/-- C7.  Closed-reader claim: after `close()`, every public operation
fails with the "closed" error.  `Reader.close` (`py2dm/_read.py`,
lines 309-322) is a no-op — its body is `_ = self` — and no `Reader`
method checks any closed flag (the class has none), so a closed reader
keeps answering queries with data: closing `sampleReader` and asking
for node 1 returns the node.  The `Writer` half of the claim does
hold: every `Writer` method starts with `_require_open`, which raises
`FileIsClosedError` on a closed writer, shown here for
`Writer.node`. -/
theorem reader_close_is_noop :
    (∀ r : Reader, Reader.close r = r) ∧
    Reader.node (Reader.close sampleReader) 1 = .ok sampleNode ∧
    (∀ (w : Writer) (nd : NodeV),
      Writer.node { w with closed := true } nd =
        ({ w with closed := true }, .error .fileIsClosedError)) := by
  refine ⟨fun r => rfl, by decide, fun w nd => ?_⟩
  simp [Writer.node]

/-- C8.  Extent claim: `extent` returns the bounding box, four NaNs on
an empty mesh, and caches the result after the first access.  The code
returns the NaN tuple for the empty mesh as claimed, but it never
returns a bounding box for a non-empty mesh: for a one-node one-based
mesh the initial `iter_nodes()` call raises `IndexError` at its
`end <= start` bounds check (`py2dm/_read.py`, lines 477-479) before
line 208 runs, and for a mesh with two or more nodes line 208
evaluates `(*node.x, *node.y)`, star-unpacking two floats, which
raises `TypeError` before any bound is computed.  The same `IndexError`
also precedes lazy mode's `NotImplementedError` on a one-node mesh;
and the property stores nothing, so nothing is ever cached (each
access re-runs the body). -/
theorem extent_raises_instead_of_returning_bounds :
    Reader.extent sampleReader = .error .indexError ∧
    Reader.extent { sampleReader with lazy := true, cache_nodes := [] } =
      .error .indexError ∧
    Reader.extent twoNodeReader = .error .typeErr ∧
    Reader.extent { twoNodeReader with lazy := true, cache_nodes := [] } =
      .error .notImplementedError ∧
    Reader.extent emptyReader = .ok .nans := by
  refine ⟨by decide, by decide, by decide, by decide, by decide⟩

/-- C9.  ID-validation claim: without zero-index mode every element
ID, node-record ID and node ID referenced inside an element must be
strictly positive, an ID `≤ 0` raising `FormatError`; with zero-index
mode `0` is additionally legal.  This holds for element IDs and node
record IDs (both guarded by `id_ <= 0 and not (id_ == 0 and
allow_zero_index)`), but the guard for node IDs referenced inside an
element reads `node_id < 0 and not (node_id == 0 and
allow_zero_index)` (`py2dm/_parser.py`, line 62), so a referenced node
ID of `0` is accepted even when zero-index mode is off: the first
conjunct below shows `E2L 1 0 2` parsing successfully in one-based
mode.  The remaining conjuncts record the behaviours that match the
claim. -/
theorem element_node_ref_zero_accepted :
    parse_element "E2L 1 0 2" true false = .ok (1, [0, 2], []) ∧
    parse_element "E2L 1 -3 2" true false = .error .formatError ∧
    parse_element "E2L 0 1 2" true false = .error .formatError ∧
    parse_element "E2L -4 1 2" true false = .error .formatError ∧
    parse_element "E2L 0 1 2" true true = .ok (0, [1, 2], []) ∧
    parse_node "ND 0 1.0 2.0 3.0" false = .error .formatError ∧
    parse_node "ND 0 1.0 2.0 3.0" true = .ok (0, 1, 2, 3) ∧
    parse_node "ND -1 1.0 2.0 3.0" true = .error .formatError := by
  refine ⟨by decide, by decide, by decide, by decide, by decide, by decide,
    by decide, by decide⟩

/-- C3.  Material-count inference and enforcement of `Writer.element`:
on a writer whose material count is unset (negative), the first
inserted element fixes `materials_per_element` to its own material
count; on a writer with a fixed non-negative count, an element with
fewer materials makes the call raise `ValueError` with the writer
completely unchanged, and an element with more materials is accepted
with a warning, the buffered copy carrying exactly
`materials_per_element` materials (the excess truncated). -/
theorem materials_count_inference_and_enforcement (w : Writer) (e : ElementV)
    (hopen : w.closed = false)
    (hflush : checkFlushState w.write_history "element" = false)
    (hfloat : w.float_materials = true) :
    (w.num_materials < 0 →
      (Writer.element w e).1.num_materials = (e.materials.length : Int) ∧
      (∃ i, (Writer.element w e).2.2 = .ok i) ∧
      (Writer.element w e).2.1 = []) ∧
    (0 ≤ w.num_materials → (e.materials.length : Int) < w.num_materials →
      Writer.element w e = (w, [], .error .valueError)) ∧
    (0 ≤ w.num_materials → w.num_materials < (e.materials.length : Int) →
      (Writer.element w e).2.1 ≠ [] ∧
      (∃ i, (Writer.element w e).2.2 = .ok i) ∧
      ∃ e', (Writer.element w e).1.cache_elements = w.cache_elements ++ [e'] ∧
        e'.materials = e.materials.take w.num_materials.toNat ∧
        (e'.materials.length : Int) = w.num_materials) := by
  refine ⟨fun hunset => ?_, fun hset hfewer => ?_, fun hset hmore => ?_⟩
  · simp only [Writer.element, hopen, hflush, Bool.false_eq_true, if_false,
      if_pos hunset, elementFinish, hfloat, Bool.true_eq_false, false_and]
    split <;> simp
  · have h1 : ¬ w.num_materials < 0 := not_lt.mpr hset
    have h2 : (e.materials.length : Int) < w.num_materials := hfewer
    simp only [Writer.element, hopen, hflush, Bool.false_eq_true, if_false,
      if_neg h1]
    split <;> simp_all
  · have h1 : ¬ w.num_materials < 0 := not_lt.mpr hset
    have h2 : ¬ (e.materials.length : Int) < w.num_materials := not_lt.mpr hmore.le
    have htake : (e.materials.take w.num_materials.toNat).length
        = w.num_materials.toNat := by
      rw [List.length_take]
      refine Nat.min_eq_left ?_
      omega
    simp only [Writer.element, hopen, hflush, Bool.false_eq_true, if_false,
      if_neg h1, apply_ite ElementV.materials, ite_self, if_neg h2,
      if_pos hmore, elementFinish, hfloat, Bool.true_eq_false, false_and,
      if_false]
    refine ⟨by simp, ⟨_, rfl⟩, ?_⟩
    refine ⟨_, rfl, rfl, ?_⟩
    simp [htake, Int.toNat_of_nonneg hset]

/-- Witness for C3: a fresh writer adopts the first element's material
count (3); a writer fixed at two materials rejects a one-material
element unchanged; and it buffers a three-material element truncated
to two materials, with a warning. -/
theorem materials_count_inference_and_enforcement_witness :
    (Writer.element Writer.fresh eThreeMats).1.num_materials = 3 ∧
    Writer.element wTwoMats eOneMat = (wTwoMats, [], .error .valueError) ∧
    (Writer.element wTwoMats eThreeMats).2.1 ≠ [] := by
  have h0 := materials_count_inference_and_enforcement Writer.fresh eThreeMats
    rfl (by decide) rfl
  have h1 := materials_count_inference_and_enforcement wTwoMats eOneMat
    rfl (by decide) rfl
  have h2 := materials_count_inference_and_enforcement wTwoMats eThreeMats
    rfl (by decide) rfl
  refine ⟨(h0.1 (by decide)).1.trans (by decide),
    h1.2.1 (by decide) (by decide),
    (h2.2.2 (by decide) (by decide)).1⟩

/-- C4.  Block-write ordering: for every pair of distinct entity kinds
K and L, once a flush of kind K has happened and a flush of kind L has
followed, inserting any further entity of kind K raises `WriteError`.
The flushes record their kind in `_write_history` (appending it unless
it is already last), and `_check_flush_state` rejects an insertion
whose kind appears in the history without being its last entry. -/
theorem block_ordering_rejects_return_to_flushed_kind :
    ∀ K L, K ∈ flushKinds → L ∈ flushKinds → K ≠ L →
    ∀ w w1 w2 : Writer, flushOf K w = (w1, .ok ()) → flushOf L w1 = (w2, .ok ()) →
    insertRaisesWriteError w2 K := by
  intro K L hK hL hne w w1 w2 h1 h2
  obtain ⟨_, _, hKmem, _⟩ := flushOf_ok K hK w w1 h1
  obtain ⟨hc2, hlast2, _, hpres⟩ := flushOf_ok L hL w1 w2 h2
  exact insert_raises_after w2 K L hne hc2 hlast2 (hpres _ hKmem) hK

/-- Witness for C4: flushing nodes, then elements, on a fresh writer,
then calling `node(...)` raises `WriteError`. -/
theorem block_ordering_rejects_return_to_flushed_kind_witness :
    (Writer.node wAfterNodeElemFlush { id := 9, x := 0, y := 0, z := 0 }).2 =
      .error .writeError := by
  have h := block_ordering_rejects_return_to_flushed_kind "node" "element"
    (by decide) (by decide) (by decide) Writer.fresh wAfterNodeFlush
    wAfterNodeElemFlush (by decide) (by decide)
  simp only [insertRaisesWriteError, if_pos rfl] at h
  exact h _

set_option maxHeartbeats 1600000 in
/-- C10.  Frame property of the insertion methods: `Writer.node`,
`Writer.element` and `Writer.node_string` deep-copy the caller's
entity before buffering it, and the auto-ID assignment and
excess-material truncation are in-place writes on the fresh copy only,
so the object at the caller's address holds exactly the same value
after the call as before, whether the call succeeds or raises. -/
theorem insertion_never_mutates_caller_entity :
    (∀ (w : Writer) (store : List NodeV) (r : Nat) (v : NodeV),
      store[r]? = some v → ((Writer.nodeRef w store r).1.2)[r]? = some v) ∧
    (∀ (w : Writer) (store : List ElementV) (r : Nat) (v : ElementV),
      store[r]? = some v → ((Writer.elementRef w store r).1.2)[r]? = some v) ∧
    (∀ (w : Writer) (store : List NodeString) (r : Nat) (v : NodeString),
      store[r]? = some v → ((Writer.node_stringRef w store r).1.2)[r]? = some v) := by
  refine ⟨?_, ?_, ?_⟩
  · intro w store r v hv
    have hr : r < store.length := by
      by_contra hcon
      rw [List.getElem?_eq_none (Nat.le_of_not_lt hcon)] at hv
      cases hv
    have hA : (store ++ [v])[r]? = some v := by
      rw [List.getElem?_append_left hr]
      exact hv
    have hB : ∀ x, ((store ++ [v]).set store.length x)[r]? = some v := by
      intro x
      rw [List.getElem?_set_ne (by omega)]
      exact hA
    unfold Writer.nodeRef
    simp only [hv]
    repeat' split
    all_goals first | exact hv | exact hA | exact hB _
  · intro w store r v hv
    have hr : r < store.length := by
      by_contra hcon
      rw [List.getElem?_eq_none (Nat.le_of_not_lt hcon)] at hv
      cases hv
    have hA : (store ++ [v])[r]? = some v := by
      rw [List.getElem?_append_left hr]
      exact hv
    have hB : ∀ x, ((store ++ [v]).set store.length x)[r]? = some v := by
      intro x
      rw [List.getElem?_set_ne (by omega)]
      exact hA
    have hC : ∀ x y, (((store ++ [v]).set store.length x).set store.length y)[r]?
        = some v := by
      intro x y
      rw [List.getElem?_set_ne (by omega)]
      exact hB x
    unfold Writer.elementRef
    simp only [hv]
    repeat' split
    all_goals first | exact hv | exact hA | exact hB _ | exact hC _ _
  · intro w store r v hv
    have hr : r < store.length := by
      by_contra hcon
      rw [List.getElem?_eq_none (Nat.le_of_not_lt hcon)] at hv
      cases hv
    have hA : (store ++ [v])[r]? = some v := by
      rw [List.getElem?_append_left hr]
      exact hv
    unfold Writer.node_stringRef
    simp only [hv]
    repeat' split
    all_goals first | exact hv | exact hA

/-- Witness for C10: inserting a node with a negative ID (auto-ID
applies), an element with a negative ID and three materials into a
two-material writer (auto-ID and truncation apply), and a node string,
each stored at address 0 of a one-object store, leaves the caller's
object unchanged. -/
theorem insertion_never_mutates_caller_entity_witness :
    ((Writer.nodeRef Writer.fresh [{ id := -1, x := 1, y := 2, z := 3 }] 0).1.2)[0]?
      = some { id := -1, x := 1, y := 2, z := 3 } ∧
    ((Writer.elementRef wTwoMats [{ eThreeMats with id := -1 }] 0).1.2)[0]?
      = some { eThreeMats with id := -1 } ∧
    ((Writer.node_stringRef Writer.fresh [nsWitness] 0).1.2)[0]? = some nsWitness := by
  refine ⟨insertion_never_mutates_caller_entity.1 _ _ _ _ rfl,
    insertion_never_mutates_caller_entity.2.1 _ _ _ _ rfl,
    insertion_never_mutates_caller_entity.2.2 _ _ _ _ rfl⟩

/-- C6 (amended).  Continuation-assembly agreement: feeding the
physical lines of a node string one at a time through
`NodeString.from_line` (passing the in-progress node string back in)
yields exactly the same result as feeding one pre-joined `NS` line
carrying the same data tokens in the same order, provided every line
carries at least one data token, every token before the final line is
a well-formed non-negative node ID, and the first line carries at
least two tokens.  (The two-token proviso is forced:
`NodeString.__init__` requires two nodes already after the first
physical line — see the counterexample theorem.)  The first conjunct
covers single-line node strings, the second all longer splits. -/
theorem continuation_assembly_agrees_with_joined_line :
    (∀ (zero : Bool) (acc : Option NodeString) (c : List String),
      feedAllChunks zero acc [c] = NodeString.from_line_chunks c acc zero) ∧
    (∀ (zero : Bool) (first last' : List String) (mids : List (List String)),
      2 ≤ first.length → (∀ t ∈ first, goodTok zero t = true) →
      (∀ l ∈ mids, l ≠ [] ∧ ∀ t ∈ l, goodTok zero t = true) → last' ≠ [] →
      feedAllChunks zero none
          (((first :: mids) ++ [last']).map (fun d => "NS" :: d)) =
        NodeString.from_line_chunks ("NS" :: (first ++ (mids.flatten ++ last')))
          none zero) := by
  refine ⟨feedAllChunks_single, ?_⟩
  intro zero first last' mids h2 hf hm hl
  have hrest_ne : (List.map (fun d => "NS" :: d) (mids ++ [last'])) ≠ [] := by simp
  have hjoin_ne : mids.flatten ++ last' ≠ [] := by
    cases last' with
    | nil => exact absurd rfl hl
    | cons a l => simp
  calc feedAllChunks zero none (((first :: mids) ++ [last']).map (fun d => "NS" :: d))
      = feedAllChunks zero (some { nodes := first.map tokVal, name := none })
          ((mids ++ [last']).map (fun d => "NS" :: d)) := by
        simp only [List.cons_append, List.map_cons]
        conv_lhs => unfold feedAllChunks
        rw [from_line_first zero first h2 hf]
        simp only [bind_ok_reduce]
        rw [if_neg (by simp)]
    _ = NodeString.from_line_chunks ("NS" :: (mids.flatten ++ last'))
          (some { nodes := first.map tokVal, name := none }) zero :=
        feed_mids zero mids last' _ hm hl
    _ = NodeString.from_line_chunks ("NS" :: (first ++ (mids.flatten ++ last')))
          none zero :=
        (from_line_none_absorb zero first (mids.flatten ++ last') h2 hf hjoin_ne).symm

/-- Witness for the amended C6: the three-line node string
`NS 1 2` / `NS 3` / `NS -4 foo`, fed line by line, agrees with the
joined line `NS 1 2 3 -4 foo`. -/
theorem continuation_assembly_agrees_with_joined_line_witness :
    feedAllChunks false none [["NS", "1", "2"], ["NS", "3"], ["NS", "-4", "foo"]] =
      NodeString.from_line_chunks ["NS", "1", "2", "3", "-4", "foo"] none false := by
  have h := continuation_assembly_agrees_with_joined_line.2 false ["1", "2"]
    ["-4", "foo"] [["3"]] (by decide) (by decide) (by decide) (by decide)
  simpa using h

end Py2dm
